import Mathlib

/-!
Shallow embedding of the vision-processing microservice
(`src/app.py` and `src/app_cloud.py`) and proofs about its claims.

Conventions of the embedding:
* Image decoding (`PIL.Image.open` + `convert('L')` + `getdata()`) is an
  external collaborator; a decoded image is a record `Img` carrying the
  width, the height, the grayscale pixel list, and the channel means.
* Python floats are modelled as rationals (`ℚ`); `round(x, 3)` is
  `round3` below (round to the nearest multiple of 1/1000).
* `random.*` draws are modelled by a record `MockRand` of explicit draws;
  `MockRand.Valid` states exactly the ranges Python's generator produces
  at each call site of `smart_mock_detection`.
* Fallible steps (decoding) return `Option`; the Flask handlers return
  an `HttpResult`, whose three constructors carry the JSON bodies the
  handlers build (200 success / 400 client error / 500 server error).
-/

/-- One detection entry of the JSON payloads: `name`, `confidence`
(rounded rational) and, in the static-mock variant only, a `bbox`. -/
structure Detection where
  name : String
  confidence : ℚ
  bbox : Option (List ℤ)
deriving Repr, DecidableEq

/-- A decoded image: size, the grayscale pixel values produced by
`image.convert('L')` (0–255 each), and per-channel means (data of the
decoded pixel buffer; `app.py` never reads the channel means). -/
structure Img where
  width : Nat
  height : Nat
  gray : List Nat
  rAvg : ℚ
  gAvg : ℚ
  bAvg : ℚ

/-- Python's `round(q, 3)`: round to the nearest thousandth.
(Python rounds ties to even on floats; no claim depends on tie
behaviour, every bound below is tie-free.) -/
def round3 (q : ℚ) : ℚ := ((round (q * 1000) : ℤ) : ℚ) / 1000

/-- `aspect_ratio = width / height` from `smart_mock_detection`. -/
def aspect (img : Img) : ℚ := (img.width : ℚ) / (img.height : ℚ)

/-- `avg_brightness = sum(pixels) / len(pixels)` from
`smart_mock_detection`. -/
def avg_brightness (img : Img) : ℚ :=
  ((img.gray.sum : ℚ)) / ((img.gray.length : ℚ))

/-- Green dominance of the decoded pixel buffer: the mean green channel
strictly exceeds the mean red and the mean blue channel. (`app.py`
computes no channel means; the predicate is stated on the image data.) -/
def greenDominant (img : Img) : Prop :=
  img.rAvg < img.gAvg ∧ img.bAvg < img.gAvg

/-- Gray dominance of the decoded pixel buffer: the channel means are
within 20 of one another. (`app.py` computes no channel means; the
predicate is stated on the image data.) -/
def grayDominant (img : Img) : Prop :=
  |img.rAvg - img.gAvg| < 20 ∧ |img.gAvg - img.bAvg| < 20

/-- `common_objects` from the general-outdoor branch of
`smart_mock_detection`. -/
def common_objects : List String :=
  ["person", "car", "bicycle", "dog", "cat", "bird"]

/-- The pseudo-random draws consumed by one call of
`smart_mock_detection`, made explicit. -/
structure MockRand where
  /-- `random.randint(3, 8)` — the number of cars. -/
  numCars : Nat
  /-- `random.uniform(0.75, 0.95)` for the i-th car. -/
  carConfs : Nat → ℚ
  /-- `random.random()` gating the truck. -/
  truckDraw : ℚ
  /-- `random.uniform(0.65, 0.85)` for the truck. -/
  truckConf : ℚ
  /-- `random.uniform(0.80, 0.95)` for the person. -/
  personConf : ℚ
  /-- `random.random()` gating the extra indoor object. -/
  extraDraw : ℚ
  /-- `random.choice(['chair', 'table', 'laptop', 'phone'])`. -/
  extraObj : String
  /-- `random.uniform(0.60, 0.85)` for the extra indoor object. -/
  extraConf : ℚ
  /-- `random.randint(2, 4)` — the number of outdoor objects. -/
  numObjects : Nat
  /-- `random.sample(common_objects, num_objects)`. -/
  sampleObjects : List String
  /-- `random.uniform(0.65, 0.90)` for each sampled outdoor object. -/
  objConf : String → ℚ

/-- The ranges Python's random generator guarantees for each draw. -/
structure MockRand.Valid (r : MockRand) : Prop where
  numCars_lb : 3 ≤ r.numCars
  numCars_ub : r.numCars ≤ 8
  carConfs_mem : ∀ i, 3/4 ≤ r.carConfs i ∧ r.carConfs i ≤ 19/20
  truckDraw_lb : 0 ≤ r.truckDraw
  truckDraw_ub : r.truckDraw < 1
  truckConf_mem : 13/20 ≤ r.truckConf ∧ r.truckConf ≤ 17/20
  personConf_mem : 4/5 ≤ r.personConf ∧ r.personConf ≤ 19/20
  extraDraw_lb : 0 ≤ r.extraDraw
  extraDraw_ub : r.extraDraw < 1
  extraObj_mem : r.extraObj ∈ ["chair", "table", "laptop", "phone"]
  extraConf_mem : 3/5 ≤ r.extraConf ∧ r.extraConf ≤ 17/20
  numObjects_lb : 2 ≤ r.numObjects
  numObjects_ub : r.numObjects ≤ 4
  sample_len : r.sampleObjects.length = r.numObjects
  sample_nodup : r.sampleObjects.Nodup
  sample_mem : ∀ x ∈ r.sampleObjects, x ∈ common_objects
  objConf_mem : ∀ x, 13/20 ≤ r.objConf x ∧ r.objConf x ≤ 9/10

/-- The `detections` list built by the if/elif/else ladder of
`smart_mock_detection`, before the final `[:6]` truncation. -/
def mock_rules (img : Img) (r : MockRand) : List Detection :=
  if 18/10 < aspect img ∧ 120 < avg_brightness img then
    -- Highway/Traffic scene (wide landscape)
    (List.range r.numCars).map
      (fun i => ⟨"car", round3 (r.carConfs i), none⟩)
      ++ (if 7/10 < r.truckDraw then
            [⟨"truck", round3 r.truckConf, none⟩] else [])
  else if aspect img < 12/10 then
    -- Portrait or indoor scene
    ⟨"person", round3 r.personConf, none⟩ ::
      (if 1/2 < r.extraDraw then
        [⟨r.extraObj, round3 r.extraConf, none⟩] else [])
  else
    -- General outdoor scene
    r.sampleObjects.map (fun obj => ⟨obj, round3 (r.objConf obj), none⟩)

/-- `smart_mock_detection` of `src/app.py`: the rule ladder followed by
`return detections[:6]`. -/
def smart_mock_detection (img : Img) (r : MockRand) : List Detection :=
  (mock_rules img r).take 6

theorem smart_mock_length_le (img : Img) (r : MockRand) :
    (smart_mock_detection img r).length ≤ 6 := by
  simp [smart_mock_detection]

/-! ## The HTTP handlers -/

/-- An uploaded multipart file: its client-supplied filename and bytes. -/
structure UploadedFile where
  filename : String
  content : List Nat
deriving Repr, DecidableEq

/-- The part of a Flask request the handlers read: `request.files`. -/
structure Request where
  files : List (String × UploadedFile)
deriving Repr, DecidableEq

/-- A Flask JSON reply: a 200 body `α`, or a 400 / 500 body
`{error: msg}`. -/
inductive HttpResult (α : Type) where
  | ok : α → HttpResult α
  | clientError : String → HttpResult α
  | serverError : String → HttpResult α
deriving Repr, DecidableEq

/-- The HTTP status code of a reply. -/
def HttpResult.statusCode : HttpResult α → Nat
  | .ok _ => 200
  | .clientError _ => 400
  | .serverError _ => 500

/-- Whether the JSON body carries an `error` key (the success bodies of
both variants carry no `error` key). -/
def HttpResult.hasErrorKey : HttpResult α → Bool
  | .ok _ => false
  | .clientError _ => true
  | .serverError _ => true

/-- One raw box of the loaded backend's native output: its class name
and raw confidence score. -/
structure RawBox where
  name : String
  conf : ℚ
deriving Repr, DecidableEq

namespace App

/-- The detection backends `load_model` can store in `model`. -/
inductive Backend where
  | ultralytics
  | torchhub
deriving Repr, DecidableEq

/-- The process-wide globals of `src/app.py`: `model` and `REAL_AI`. -/
structure BackendState where
  model : Option Backend
  REAL_AI : Bool
deriving Repr, DecidableEq

/-- Which of `load_model`'s three candidate attempts would succeed in
the current environment (imports, downloads, network). -/
structure LoadEnv where
  ultralyticsOk : Bool
  torchHubOk : Bool
  apiOk : Bool
deriving Repr, DecidableEq

/-- The outcome of `load_model`: its return value, the globals it
leaves behind, and which candidates it attempted, in order. -/
structure LoadResult where
  returned : Bool
  state : BackendState
  attempted : List Nat
deriving Repr, DecidableEq

/-- `load_model` of `src/app.py`. Candidate 1 (ultralytics) and
candidate 2 (torch hub) set `model` and `REAL_AI` and return `True`;
candidate 3 (the external-API probe) only returns `True`, leaving the
globals at their initial values (`None`, `False`); if all three fail,
`load_model` returns `False`. -/
def load_model (env : LoadEnv) : LoadResult :=
  if env.ultralyticsOk then
    ⟨true, ⟨some .ultralytics, true⟩, [1]⟩
  else if env.torchHubOk then
    ⟨true, ⟨some .torchhub, true⟩, [1, 2]⟩
  else if env.apiOk then
    ⟨true, ⟨none, false⟩, [1, 2, 3]⟩
  else
    ⟨false, ⟨none, false⟩, [1, 2, 3]⟩

/-- The success body of `/detect` in `src/app.py`. -/
structure AppSuccess where
  success : Bool
  detections : List Detection
  image : String
  count : Nat
  message : String
  real_ai : Bool
  model_status : String
deriving Repr, DecidableEq

/-- Normalisation of the backend's raw boxes in the real path of
`detect_objects`: keep boxes with `conf > 0.3`, emit
`{name, round(conf, 3)}` for each. -/
def realDetections (boxes : List RawBox) : List Detection :=
  (boxes.filter (fun b => 3/10 < b.conf)).map
    (fun b => ⟨b.name, round3 b.conf, none⟩)

/-- `detect_objects` of `src/app.py`. `decode` stands for
`Image.open` + the PNG re-encode pipeline succeeding (`none` = the
`try` block raises, answered with a 500); `encodePNG` for the base64
PNG string of an image; `backendRun` for `model(image)` (`Except.error`
= the inference call raises). -/
def detect_objects (st : BackendState) (req : Request)
    (decode : List Nat → Option Img) (encodePNG : Img → String)
    (backendRun : Img → Except String (List RawBox)) (r : MockRand) :
    HttpResult AppSuccess :=
  match req.files.lookup "image" with
  | none => .clientError "No image uploaded"
  | some file =>
    if file.filename = "" then .clientError "No image selected"
    else
      match decode file.content with
      | none => .serverError "cannot identify image file"
      | some image =>
        if st.REAL_AI ∧ st.model.isSome then
          match backendRun image with
          | .ok results =>
            .ok ⟨true, realDetections results, encodePNG image,
              (realDetections results).length,
              "Real AI Detection - YOLO", st.REAL_AI,
              if st.model.isSome then "loaded" else "mock"⟩
          | .error _ =>
            .ok ⟨true, smart_mock_detection image r, encodePNG image,
              (smart_mock_detection image r).length,
              "Smart Detection (AI Fallback)", st.REAL_AI,
              if st.model.isSome then "loaded" else "mock"⟩
        else
          .ok ⟨true, smart_mock_detection image r, encodePNG image,
            (smart_mock_detection image r).length,
            "Smart Analysis - Demo Mode", st.REAL_AI,
            if st.model.isSome then "loaded" else "mock"⟩

/-- The detections list of a reply (`[]` on error replies). -/
def responseDetections : HttpResult AppSuccess → List Detection
  | .ok s => s.detections
  | _ => []

end App

namespace Cloud

/-- The success body of `/detect` in `src/app_cloud.py`. -/
structure CloudSuccess where
  success : Bool
  detections : List Detection
  image : String
  count : Nat
  message : String
  processing_time : String
  model : String
  status : String
deriving Repr, DecidableEq

/-- `mock_detections` of `src/app_cloud.py`: the constant list. -/
def mock_detections : List Detection :=
  [⟨"person", 87/100, some [100, 50, 300, 400]⟩,
   ⟨"car", 74/100, some [50, 200, 250, 350]⟩,
   ⟨"bicycle", 68/100, some [300, 150, 450, 300]⟩]

/-- `detect_objects` of `src/app_cloud.py`. -/
def detect_objects (req : Request) (decode : List Nat → Option Img)
    (encodePNG : Img → String) : HttpResult CloudSuccess :=
  match req.files.lookup "image" with
  | none => .clientError "No image uploaded"
  | some file =>
    if file.filename = "" then .clientError "No image selected"
    else
      match decode file.content with
      | none => .serverError "cannot identify image file"
      | some image =>
        .ok ⟨true, mock_detections, encodePNG image,
          mock_detections.length, "Cloud Vision Processing - Demo Mode",
          "245ms", "YOLOv5s", "Cloud deployment successful!"⟩

end Cloud

/-! ## Rounding lemmas -/

/-- A rational is an integer multiple of 1/1000 ("rounded to exactly
3 decimal places"). -/
def isRound3 (q : ℚ) : Prop := ∃ k : ℤ, q = (k : ℚ) / 1000

/-- `round3` of a multiple of 1/1000 is itself. -/
theorem round3_thousandth (k : ℤ) :
    round3 ((k : ℚ) / 1000) = (k : ℚ) / 1000 := by
  unfold round3
  rw [div_mul_cancel₀ _ (by norm_num : (1000 : ℚ) ≠ 0), round_intCast]

/-- `round3` keeps values of `[0, 1]` inside `[0, 1]`, and its output
is always a multiple of 1/1000. -/
theorem round3_unit {q : ℚ} (h0 : 0 ≤ q) (h1 : q ≤ 1) :
    0 ≤ round3 q ∧ round3 q ≤ 1 ∧ isRound3 (round3 q) := by
  have hlb : (0 : ℤ) ≤ round (q * 1000) := by
    rw [round_eq]
    refine Int.le_floor.2 ?_
    push_cast
    nlinarith
  have hub : round (q * 1000) ≤ 1000 := by
    have : round (q * 1000) < 1001 := by
      rw [round_eq]
      refine Int.floor_lt.2 ?_
      push_cast
      nlinarith
    omega
  refine ⟨?_, ?_, round (q * 1000), rfl⟩
  · unfold round3
    positivity
  · unfold round3
    rw [div_le_one (by norm_num : (0 : ℚ) < 1000)]
    exact_mod_cast hub

/-! ## The labels the heuristic can emit, and per-branch lemmas -/

/-- Every label `smart_mock_detection` can ever emit. -/
def mock_labels : List String :=
  ["car", "truck", "person", "chair", "table", "laptop", "phone"]
    ++ common_objects

/-- The highway branch: under the wide-and-bright condition the rule
ladder emits the cars followed by the optional truck. -/
theorem mock_rules_highway (img : Img) (r : MockRand)
    (h1 : 18/10 < aspect img) (h2 : 120 < avg_brightness img) :
    mock_rules img r =
      (List.range r.numCars).map
        (fun i => ⟨"car", round3 (r.carConfs i), none⟩)
        ++ (if 7/10 < r.truckDraw then
              [⟨"truck", round3 r.truckConf, none⟩] else []) := by
  unfold mock_rules
  rw [if_pos ⟨h1, h2⟩]

/-- The portrait branch: when the image is not wide-and-bright and its
aspect ratio is below 1.2, the rule ladder emits the person followed by
the optional extra indoor object. -/
theorem mock_rules_portrait (img : Img) (r : MockRand)
    (h1 : ¬(18/10 < aspect img ∧ 120 < avg_brightness img))
    (h2 : aspect img < 12/10) :
    mock_rules img r =
      ⟨"person", round3 r.personConf, none⟩ ::
        (if 1/2 < r.extraDraw then
          [⟨r.extraObj, round3 r.extraConf, none⟩] else []) := by
  unfold mock_rules
  rw [if_neg h1, if_pos h2]

/-- Every detection of the rule ladder has a label drawn from
`mock_labels` and a confidence in `[0, 1]` that is a multiple of
1/1000. -/
theorem mock_rules_spec {img : Img} {r : MockRand}
    (hv : MockRand.Valid r) :
    ∀ d ∈ mock_rules img r, d.name ∈ mock_labels ∧
      0 ≤ d.confidence ∧ d.confidence ≤ 1 ∧ isRound3 d.confidence := by
  intro d hd
  unfold mock_rules at hd
  split at hd
  · rcases List.mem_append.1 hd with hc | ht
    · obtain ⟨i, _, rfl⟩ := List.mem_map.1 hc
      have h := hv.carConfs_mem i
      exact ⟨by simp [mock_labels],
        round3_unit (by linarith [h.1]) (by linarith [h.2])⟩
    · split at ht
      · rcases List.mem_singleton.1 ht with rfl
        have h := hv.truckConf_mem
        exact ⟨by simp [mock_labels],
          round3_unit (by linarith [h.1]) (by linarith [h.2])⟩
      · simp at ht
  · split at hd
    · rcases List.mem_cons.1 hd with rfl | he
      · have h := hv.personConf_mem
        exact ⟨by simp [mock_labels],
          round3_unit (by linarith [h.1]) (by linarith [h.2])⟩
      · split at he
        · rcases List.mem_singleton.1 he with rfl
          have h := hv.extraConf_mem
          have hobj := hv.extraObj_mem
          refine ⟨?_, round3_unit (by linarith [h.1]) (by linarith [h.2])⟩
          simp only [mock_labels, common_objects, List.mem_append,
            List.mem_cons, List.not_mem_nil] at hobj ⊢
          tauto
        · simp at he
    · obtain ⟨obj, hobj, rfl⟩ := List.mem_map.1 hd
      have h := hv.objConf_mem obj
      have hmem := hv.sample_mem obj hobj
      refine ⟨?_, round3_unit (by linarith [h.1]) (by linarith [h.2])⟩
      simp only [mock_labels, List.mem_append]
      exact Or.inr hmem

/-- The same bounds for the truncated output `smart_mock_detection`. -/
theorem smart_mock_spec {img : Img} {r : MockRand}
    (hv : MockRand.Valid r) :
    ∀ d ∈ smart_mock_detection img r, d.name ∈ mock_labels ∧
      0 ≤ d.confidence ∧ d.confidence ≤ 1 ∧ isRound3 d.confidence :=
  fun d hd => mock_rules_spec hv d (List.mem_of_mem_take hd)

/-- On a wide-and-bright image the truncated output still carries at
least three detections labelled `"car"`. -/
theorem smart_mock_car_count {img : Img} {r : MockRand}
    (hv : MockRand.Valid r)
    (h1 : 18/10 < aspect img) (h2 : 120 < avg_brightness img) :
    3 ≤ ((smart_mock_detection img r).map Detection.name).count "car" := by
  unfold smart_mock_detection
  rw [mock_rules_highway img r h1 h2, List.map_take, List.map_append,
    List.map_map]
  have hcars : (List.map
      (Detection.name ∘ fun i =>
        (⟨"car", round3 (r.carConfs i), none⟩ : Detection))
      (List.range r.numCars)) = List.replicate r.numCars "car" := by
    simp [Function.comp_def]
  rw [hcars, List.take_append_eq_append_take, List.take_replicate,
    List.count_append, List.count_replicate_self]
  have h3 := hv.numCars_lb
  omega

/-! ## Concrete inputs -/

/-- A wide, bright, gray 200×100 image (all channels average 128). -/
def imgWide : Img := ⟨200, 100, List.replicate 20000 128, 128, 128, 128⟩

/-- A square, green-dominant 100×100 image. -/
def imgGreen : Img := ⟨100, 100, List.replicate 10000 109, 50, 150, 50⟩

/-- A small square 10×10 image. -/
def imgTiny : Img := ⟨10, 10, List.replicate 100 128, 128, 128, 128⟩

/-- One concrete, in-range assignment of all random draws. -/
def rand0 : MockRand where
  numCars := 3
  carConfs := fun _ => 4/5
  truckDraw := 0
  truckConf := 7/10
  personConf := 9/10
  extraDraw := 0
  extraObj := "chair"
  extraConf := 7/10
  numObjects := 2
  sampleObjects := ["person", "car"]
  objConf := fun _ => 7/10

theorem rand0_valid : MockRand.Valid rand0 := by
  constructor <;> try norm_num [rand0, common_objects]
  decide

theorem aspect_imgWide : aspect imgWide = 2 := by
  norm_num [aspect, imgWide]

theorem avg_brightness_imgWide : avg_brightness imgWide = 128 := by
  norm_num [avg_brightness, imgWide, List.sum_replicate]

theorem aspect_imgGreen : aspect imgGreen = 1 := by
  norm_num [aspect, imgGreen]

theorem aspect_imgTiny : aspect imgTiny = 1 := by
  norm_num [aspect, imgTiny]

theorem round3_fourFifths : round3 (4/5 : ℚ) = 4/5 := by
  rw [show (4/5 : ℚ) = ((800 : ℤ) : ℚ) / 1000 by norm_num,
    round3_thousandth]

theorem round3_nineTenths : round3 (9/10 : ℚ) = 9/10 := by
  rw [show (9/10 : ℚ) = ((900 : ℤ) : ℚ) / 1000 by norm_num,
    round3_thousandth]

/-- Concrete run: the wide bright image with `rand0` produces three
`"car"` detections. -/
theorem smart_mock_imgWide_rand0 :
    smart_mock_detection imgWide rand0 =
      [⟨"car", 4/5, none⟩, ⟨"car", 4/5, none⟩, ⟨"car", 4/5, none⟩] := by
  unfold smart_mock_detection
  rw [mock_rules_highway imgWide rand0
    (by rw [aspect_imgWide]; norm_num)
    (by rw [avg_brightness_imgWide]; norm_num)]
  norm_num [rand0, List.range_succ, round3_fourFifths]

/-- Concrete run: the green square image with `rand0` produces a single
`"person"` detection. -/
theorem smart_mock_imgGreen_rand0 :
    smart_mock_detection imgGreen rand0 = [⟨"person", 9/10, none⟩] := by
  unfold smart_mock_detection
  rw [mock_rules_portrait imgGreen rand0
    (by rw [aspect_imgGreen]; intro h; exact absurd h.1 (by norm_num))
    (by rw [aspect_imgGreen]; norm_num)]
  norm_num [rand0, round3_nineTenths]

/-! ## Concrete handler arguments and evaluation runs -/

/-- Globals after all load attempts failed: `model = None`,
`REAL_AI = False`. -/
def stMock : App.BackendState := ⟨none, false⟩

/-- Globals after the ultralytics load succeeded. -/
def stReal : App.BackendState := ⟨some .ultralytics, true⟩

/-- A request whose multipart form has no `image` field. -/
def reqNone : Request := ⟨[]⟩

/-- An uploaded file with a normal filename. -/
def filePhoto : UploadedFile := ⟨"photo.png", [137, 80, 78, 71]⟩

/-- A request carrying `filePhoto` under the `image` field. -/
def reqPhoto : Request := ⟨[("image", filePhoto)]⟩

/-- A request whose uploaded file has an empty filename. -/
def reqNoName : Request := ⟨[("image", ⟨"", [137, 80]⟩)]⟩

/-- A decoder that decodes everything to `imgWide`. -/
def decodeWide : List Nat → Option Img := fun _ => some imgWide

/-- A decoder that decodes everything to `imgGreen`. -/
def decodeGreen : List Nat → Option Img := fun _ => some imgGreen

/-- A decoder that decodes everything to `imgTiny`. -/
def decodeTiny : List Nat → Option Img := fun _ => some imgTiny

/-- A fixed base64-PNG encoder stub. -/
def encode0 : Img → String := fun _ => "base64png"

/-- A backend whose inference call raises. -/
def backendBoom : Img → Except String (List RawBox) :=
  fun _ => .error "CUDA error: out of memory"

/-- Seven raw boxes, all above the 0.3 threshold. -/
def boxes7 : List RawBox := List.replicate 7 ⟨"car", 9/10⟩

/-- A backend that returns the seven boxes. -/
def backend7 : Img → Except String (List RawBox) := fun _ => .ok boxes7

/-- Concrete mock-path run of the `app.py` handler. -/
theorem app_eval_mock :
    App.detect_objects stMock reqPhoto decodeWide encode0 backend7 rand0 =
      .ok ⟨true,
        [⟨"car", 4/5, none⟩, ⟨"car", 4/5, none⟩, ⟨"car", 4/5, none⟩],
        "base64png", 3, "Smart Analysis - Demo Mode", false, "mock"⟩ := by
  unfold App.detect_objects
  rw [show reqPhoto.files.lookup "image" = some filePhoto from rfl]
  dsimp only
  rw [if_neg (by decide : ¬filePhoto.filename = "")]
  rw [show decodeWide filePhoto.content = some imgWide from rfl]
  dsimp only
  rw [if_neg (by simp [stMock])]
  rw [smart_mock_imgWide_rand0]
  rfl

/-- Concrete real-path run of the `app.py` handler: seven detections
come back. -/
theorem app_eval_real7 :
    App.detect_objects stReal reqPhoto decodeTiny encode0 backend7 rand0 =
      .ok ⟨true, List.replicate 7 ⟨"car", 9/10, none⟩,
        "base64png", 7, "Real AI Detection - YOLO", true, "loaded"⟩ := by
  unfold App.detect_objects
  rw [show reqPhoto.files.lookup "image" = some filePhoto from rfl]
  dsimp only
  rw [if_neg (by decide : ¬filePhoto.filename = "")]
  rw [show decodeTiny filePhoto.content = some imgTiny from rfl]
  dsimp only
  rw [if_pos (by simp [stReal] : stReal.REAL_AI ∧ stReal.model.isSome)]
  rw [show backend7 imgTiny = .ok boxes7 from rfl]
  dsimp only
  have hfilter : boxes7.filter (fun b => 3/10 < b.conf) = boxes7 := by
    rw [List.filter_eq_self]
    intro b hb
    rw [List.eq_of_mem_replicate hb]
    norm_num
  have hreal : App.realDetections boxes7 =
      List.replicate 7 ⟨"car", 9/10, none⟩ := by
    unfold App.realDetections
    rw [hfilter]
    unfold boxes7
    rw [List.map_replicate, round3_nineTenths]
  rw [hreal]
  rfl

/-- Concrete get of the cloud handler's success body. -/
def cloudS0 : Cloud.CloudSuccess :=
  ⟨true, Cloud.mock_detections, "base64png", 3,
    "Cloud Vision Processing - Demo Mode", "245ms", "YOLOv5s",
    "Cloud deployment successful!"⟩

/-- Concrete run of the `app_cloud.py` handler. -/
theorem cloud_eval :
    Cloud.detect_objects reqPhoto decodeTiny encode0 = .ok cloudS0 := by
  unfold Cloud.detect_objects
  rw [show reqPhoto.files.lookup "image" = some filePhoto from rfl]
  dsimp only
  rw [if_neg (by decide : ¬filePhoto.filename = "")]
  rfl

/-! ## Claims -/

/-- C1, counterexample: on a concrete wide, bright image and concrete
in-range random draws, the heuristic classifier returns three
detections all labelled `"car"`, so the output of the mock classifier
does contain two detections with the same label — no deduplication by
label is applied. -/
theorem c1_counterexample :
    MockRand.Valid rand0 ∧ 18/10 < aspect imgWide ∧
    120 < avg_brightness imgWide ∧
    ¬ ((smart_mock_detection imgWide rand0).map Detection.name).Nodup := by
  refine ⟨rand0_valid, by rw [aspect_imgWide]; norm_num,
    by rw [avg_brightness_imgWide]; norm_num, ?_⟩
  rw [smart_mock_imgWide_rand0]
  decide

/-- C1, amended: `smart_mock_detection` applies no deduplication by
label — for every wide (`aspect_ratio > 1.8`) bright
(`avg_brightness > 120`) image and any in-range draws its output
contains repeated labels (at least three `"car"` entries); only the
static-mock variant's constant list has pairwise-distinct labels. -/
theorem c1_no_dedup :
    (∀ (img : Img) (r : MockRand), MockRand.Valid r →
      18/10 < aspect img → 120 < avg_brightness img →
      ¬ ((smart_mock_detection img r).map Detection.name).Nodup)
    ∧ (Cloud.mock_detections.map Detection.name).Nodup := by
  constructor
  · intro img r hv h1 h2 hnd
    have hc := smart_mock_car_count hv h1 h2
    have h1c := List.nodup_iff_count_le_one.1 hnd "car"
    omega
  · decide

/-- C1, witness for the amended theorem at a concrete input. -/
theorem c1_witness :
    ¬ ((smart_mock_detection imgWide rand0).map Detection.name).Nodup :=
  c1_no_dedup.1 imgWide rand0 rand0_valid
    (by rw [aspect_imgWide]; norm_num)
    (by rw [avg_brightness_imgWide]; norm_num)

/-- C2, counterexample: with the real backend loaded and the backend
returning seven boxes above the 0.3 threshold, the `/detect` success
response carries seven detections — the real path of `app.py` applies
no truncation to 6. -/
theorem c2_counterexample :
    (App.responseDetections
      (App.detect_objects stReal reqPhoto decodeTiny encode0 backend7
        rand0)).length = 7 := by
  rw [app_eval_real7]
  rfl

/-- C2, amended: the `len(detections) ≤ 6` cap holds on every code
path except the real-backend success path ("Real AI Detection - YOLO"
responses), which applies no truncation: the heuristic classifier
truncates to 6 and the static-mock variant's constant list has
length 3. -/
theorem c2_mock_paths_capped :
    (∀ (img : Img) (r : MockRand),
      (smart_mock_detection img r).length ≤ 6)
    ∧ (∀ (st : App.BackendState) (req : Request)
        (dec : List Nat → Option Img) (enc : Img → String)
        (bk : Img → Except String (List RawBox)) (r : MockRand)
        (s : App.AppSuccess),
        App.detect_objects st req dec enc bk r = .ok s →
        s.message = "Real AI Detection - YOLO" ∨
          s.detections.length ≤ 6)
    ∧ (∀ (req : Request) (dec : List Nat → Option Img)
        (enc : Img → String) (s : Cloud.CloudSuccess),
        Cloud.detect_objects req dec enc = .ok s →
        s.detections.length ≤ 6) := by
  refine ⟨smart_mock_length_le, ?_, ?_⟩
  · intro st req dec enc bk r s h
    unfold App.detect_objects at h
    split at h
    · exact HttpResult.noConfusion h
    · split at h
      · exact HttpResult.noConfusion h
      · split at h
        · exact HttpResult.noConfusion h
        · split at h
          · split at h
            · cases h
              left
              rfl
            · cases h
              right
              exact smart_mock_length_le _ _
          · cases h
            right
            exact smart_mock_length_le _ _
  · intro req dec enc s h
    unfold Cloud.detect_objects at h
    split at h
    · exact HttpResult.noConfusion h
    · split at h
      · exact HttpResult.noConfusion h
      · split at h
        · exact HttpResult.noConfusion h
        · cases h
          simp [Cloud.mock_detections]

/-- C2, witness for the amended theorem at a concrete input. -/
theorem c2_witness : cloudS0.detections.length ≤ 6 :=
  c2_mock_paths_capped.2.2 reqPhoto decodeTiny encode0 cloudS0 cloud_eval

/-- C3, counterexample: a concrete wide, gray-dominant, bright image
with concrete in-range draws whose output contains no `"road"`
detection — `smart_mock_detection` checks no gray dominance and never
emits a `"road"` label. -/
theorem c3_counterexample :
    MockRand.Valid rand0 ∧ 18/10 < aspect imgWide ∧
    grayDominant imgWide ∧ 120 < avg_brightness imgWide ∧
    "road" ∉ (smart_mock_detection imgWide rand0).map Detection.name := by
  refine ⟨rand0_valid, by rw [aspect_imgWide]; norm_num,
    by norm_num [grayDominant, imgWide],
    by rw [avg_brightness_imgWide]; norm_num, ?_⟩
  rw [smart_mock_imgWide_rand0]
  decide

/-- C3, amended: for every wide (`aspect_ratio > 1.8`) bright
(`avg_brightness > 120`) image — gray dominance is not inspected by
the code — the classifier's output contains at least 2 `"car"`
detections, but never a `"road"` detection. -/
theorem c3_wide_bright_cars_no_road :
    ∀ (img : Img) (r : MockRand), MockRand.Valid r →
      18/10 < aspect img → 120 < avg_brightness img →
      2 ≤ ((smart_mock_detection img r).map Detection.name).count "car" ∧
      "road" ∉ (smart_mock_detection img r).map Detection.name := by
  intro img r hv h1 h2
  constructor
  · have := smart_mock_car_count hv h1 h2
    omega
  · intro hmem
    obtain ⟨d, hd, hname⟩ := List.mem_map.1 hmem
    have hlab := (smart_mock_spec hv d hd).1
    rw [hname] at hlab
    exact absurd hlab (by decide)

/-- C3, witness for the amended theorem at a concrete input. -/
theorem c3_witness :
    2 ≤ ((smart_mock_detection imgWide rand0).map Detection.name).count
          "car" ∧
    "road" ∉ (smart_mock_detection imgWide rand0).map Detection.name :=
  c3_wide_bright_cars_no_road imgWide rand0 rand0_valid
    (by rw [aspect_imgWide]; norm_num)
    (by rw [avg_brightness_imgWide]; norm_num)

/-- C4, counterexample: a concrete green-dominant image with concrete
in-range draws whose output contains no `"tree"` detection —
`smart_mock_detection` reads no colour channels and never emits a
`"tree"` label. -/
theorem c4_counterexample :
    MockRand.Valid rand0 ∧ greenDominant imgGreen ∧
    "tree" ∉ (smart_mock_detection imgGreen rand0).map Detection.name := by
  refine ⟨rand0_valid, by norm_num [greenDominant, imgGreen], ?_⟩
  rw [smart_mock_imgGreen_rand0]
  decide

/-- C4, amended: the classifier ignores colour entirely — for every
green-dominant image and any in-range draws, the output never includes
a `"tree"` detection. -/
theorem c4_green_no_tree :
    ∀ (img : Img) (r : MockRand), MockRand.Valid r →
      greenDominant img →
      "tree" ∉ (smart_mock_detection img r).map Detection.name := by
  intro img r hv _ hmem
  obtain ⟨d, hd, hname⟩ := List.mem_map.1 hmem
  have hlab := (smart_mock_spec hv d hd).1
  rw [hname] at hlab
  exact absurd hlab (by decide)

/-- C4, witness for the amended theorem at a concrete input. -/
theorem c4_witness :
    "tree" ∉ (smart_mock_detection imgGreen rand0).map Detection.name :=
  c4_green_no_tree imgGreen rand0 rand0_valid
    (by norm_num [greenDominant, imgGreen])

/-- C5: every confidence the repository's code produces lies in
`[0, 1]` and is a multiple of 1/1000 ("rounded to exactly 3 decimal
places"): unconditionally for the heuristic classifier (in-range
draws) and the static-mock list, and for the real-backend
normalisation whenever the backend's raw scores are themselves
in `[0, 1]` (the code filters only from below, at 0.3). -/
theorem c5_confidence_bounds :
    (∀ (img : Img) (r : MockRand), MockRand.Valid r →
      ∀ d ∈ smart_mock_detection img r,
        0 ≤ d.confidence ∧ d.confidence ≤ 1 ∧ isRound3 d.confidence)
    ∧ (∀ d ∈ Cloud.mock_detections,
        0 ≤ d.confidence ∧ d.confidence ≤ 1 ∧ isRound3 d.confidence)
    ∧ (∀ (boxes : List RawBox),
        (∀ b ∈ boxes, 0 ≤ b.conf ∧ b.conf ≤ 1) →
        ∀ d ∈ App.realDetections boxes,
          0 ≤ d.confidence ∧ d.confidence ≤ 1 ∧
            isRound3 d.confidence) := by
  refine ⟨?_, ?_, ?_⟩
  · intro img r hv d hd
    exact (smart_mock_spec hv d hd).2
  · intro d hd
    simp only [Cloud.mock_detections, List.mem_cons,
      List.not_mem_nil, or_false] at hd
    rcases hd with rfl | rfl | rfl
    · exact ⟨by norm_num, by norm_num, 870, by norm_num⟩
    · exact ⟨by norm_num, by norm_num, 740, by norm_num⟩
    · exact ⟨by norm_num, by norm_num, 680, by norm_num⟩
  · intro boxes hb d hd
    unfold App.realDetections at hd
    obtain ⟨b, hbf, rfl⟩ := List.mem_map.1 hd
    have hmem := hb b (List.mem_of_mem_filter hbf)
    exact round3_unit hmem.1 hmem.2

/-- C5, witness at a concrete detection of a concrete run. -/
theorem c5_witness :
    0 ≤ (4/5 : ℚ) ∧ (4/5 : ℚ) ≤ 1 ∧ isRound3 (4/5 : ℚ) :=
  c5_confidence_bounds.1 imgWide rand0 rand0_valid
    ⟨"car", 4/5, none⟩
    (by rw [smart_mock_imgWide_rand0]; exact List.mem_cons_self _ _)

/-- C6: in both variants, a `POST /detect` whose multipart form has no
`image` field, or whose uploaded file has an empty filename, is
answered with HTTP 400 and a JSON body carrying an `error` key. -/
theorem c6_bad_upload_400 :
    (∀ (st : App.BackendState) (req : Request)
        (dec : List Nat → Option Img) (enc : Img → String)
        (bk : Img → Except String (List RawBox)) (r : MockRand),
        (req.files.lookup "image" = none ∨
          ∃ f, req.files.lookup "image" = some f ∧ f.filename = "") →
        (App.detect_objects st req dec enc bk r).statusCode = 400 ∧
        (App.detect_objects st req dec enc bk r).hasErrorKey = true)
    ∧ (∀ (req : Request) (dec : List Nat → Option Img)
        (enc : Img → String),
        (req.files.lookup "image" = none ∨
          ∃ f, req.files.lookup "image" = some f ∧ f.filename = "") →
        (Cloud.detect_objects req dec enc).statusCode = 400 ∧
        (Cloud.detect_objects req dec enc).hasErrorKey = true) := by
  constructor
  · intro st req dec enc bk r h
    rcases h with hnone | ⟨f, hf, hempty⟩
    · unfold App.detect_objects
      rw [hnone]
      exact ⟨rfl, rfl⟩
    · unfold App.detect_objects
      rw [hf]
      dsimp only
      rw [if_pos hempty]
      exact ⟨rfl, rfl⟩
  · intro req dec enc h
    rcases h with hnone | ⟨f, hf, hempty⟩
    · unfold Cloud.detect_objects
      rw [hnone]
      exact ⟨rfl, rfl⟩
    · unfold Cloud.detect_objects
      rw [hf]
      dsimp only
      rw [if_pos hempty]
      exact ⟨rfl, rfl⟩

/-- C6, witness at concrete bad requests. -/
theorem c6_witness :
    (App.detect_objects stMock reqNone decodeTiny encode0 backend7
      rand0).statusCode = 400 ∧
    (App.detect_objects stMock reqNone decodeTiny encode0 backend7
      rand0).hasErrorKey = true :=
  c6_bad_upload_400.1 stMock reqNone decodeTiny encode0 backend7 rand0
    (Or.inl rfl)

/-- C7, counterexample: when only the external-API reachability probe
succeeds, `load_model` returns success but leaves `REAL_AI = False`
and `model = None` — the "sets the flag and stores a handle on every
candidate success" part of the claim fails for candidate 3. -/
theorem c7_counterexample :
    (App.load_model ⟨false, false, true⟩).returned = true ∧
    (App.load_model ⟨false, false, true⟩).state.REAL_AI = false ∧
    (App.load_model ⟨false, false, true⟩).state.model = none := by
  decide

/-- C7, amended: `load_model` attempts its three candidates in fixed
priority order and stops at the first success; it sets the `REAL_AI`
flag and stores a `model` handle exactly when candidate 1
(ultralytics) or candidate 2 (torch hub) succeeds — the external-API
probe (candidate 3) reports success without either side effect. -/
theorem c7_fallback_chain :
    ∀ (u t a : Bool),
      (App.load_model ⟨u, t, a⟩).attempted =
        (if u then [1] else if t then [1, 2] else [1, 2, 3]) ∧
      (App.load_model ⟨u, t, a⟩).returned = (u || t || a) ∧
      (App.load_model ⟨u, t, a⟩).state.REAL_AI = (u || t) ∧
      (App.load_model ⟨u, t, a⟩).state.model.isSome = (u || t) := by
  decide

/-- C8: if the real backend is loaded and its inference call raises,
the handler answers that request with the heuristic mock's detections
in a plain 200 success body carrying no `error` key — the backend
failure is not surfaced. -/
theorem c8_backend_failure_fallback :
    ∀ (st : App.BackendState) (req : Request)
      (dec : List Nat → Option Img) (enc : Img → String)
      (bk : Img → Except String (List RawBox)) (r : MockRand)
      (f : UploadedFile) (img : Img) (e : String),
      st.REAL_AI = true → st.model.isSome = true →
      req.files.lookup "image" = some f → f.filename ≠ "" →
      dec f.content = some img → bk img = .error e →
      App.detect_objects st req dec enc bk r =
        .ok ⟨true, smart_mock_detection img r, enc img,
          (smart_mock_detection img r).length,
          "Smart Detection (AI Fallback)", true, "loaded"⟩ ∧
      (App.detect_objects st req dec enc bk r).statusCode = 200 ∧
      (App.detect_objects st req dec enc bk r).hasErrorKey = false := by
  intro st req dec enc bk r f img e hreal hmodel hf hname hdec hbk
  have h : App.detect_objects st req dec enc bk r =
      .ok ⟨true, smart_mock_detection img r, enc img,
        (smart_mock_detection img r).length,
        "Smart Detection (AI Fallback)", true, "loaded"⟩ := by
    unfold App.detect_objects
    rw [hf]
    dsimp only
    rw [if_neg hname, hdec]
    dsimp only
    rw [if_pos ⟨hreal, hmodel⟩, hbk]
    rw [hreal, hmodel]
    rfl
  exact ⟨h, by rw [h]; rfl, by rw [h]; rfl⟩

/-- C8, witness at a concrete request with a raising backend. -/
theorem c8_witness :
    App.detect_objects stReal reqPhoto decodeTiny encode0 backendBoom
        rand0 =
      .ok ⟨true, smart_mock_detection imgTiny rand0, encode0 imgTiny,
        (smart_mock_detection imgTiny rand0).length,
        "Smart Detection (AI Fallback)", true, "loaded"⟩ ∧
    (App.detect_objects stReal reqPhoto decodeTiny encode0 backendBoom
      rand0).statusCode = 200 ∧
    (App.detect_objects stReal reqPhoto decodeTiny encode0 backendBoom
      rand0).hasErrorKey = false :=
  c8_backend_failure_fallback stReal reqPhoto decodeTiny encode0
    backendBoom rand0 filePhoto imgTiny "CUDA error: out of memory"
    rfl rfl rfl (by decide) rfl rfl

/-- C9: the static-mock variant's detections are input-independent —
every success response carries exactly the constant three-entry list
(person 0.87, car 0.74, bicycle 0.68, each with its fixed bbox), so
any two successfully decoded uploads yield identical detections. -/
theorem c9_static_input_independent :
    (∀ (req : Request) (dec : List Nat → Option Img)
        (enc : Img → String) (s : Cloud.CloudSuccess),
        Cloud.detect_objects req dec enc = .ok s →
        s.detections = Cloud.mock_detections)
    ∧ (∀ (req1 req2 : Request) (dec1 dec2 : List Nat → Option Img)
        (enc1 enc2 : Img → String) (s1 s2 : Cloud.CloudSuccess),
        Cloud.detect_objects req1 dec1 enc1 = .ok s1 →
        Cloud.detect_objects req2 dec2 enc2 = .ok s2 →
        s1.detections = s2.detections)
    ∧ Cloud.mock_detections =
        [⟨"person", 87/100, some [100, 50, 300, 400]⟩,
         ⟨"car", 74/100, some [50, 200, 250, 350]⟩,
         ⟨"bicycle", 68/100, some [300, 150, 450, 300]⟩] := by
  have h1 : ∀ (req : Request) (dec : List Nat → Option Img)
      (enc : Img → String) (s : Cloud.CloudSuccess),
      Cloud.detect_objects req dec enc = .ok s →
      s.detections = Cloud.mock_detections := by
    intro req dec enc s h
    unfold Cloud.detect_objects at h
    split at h
    · exact HttpResult.noConfusion h
    · split at h
      · exact HttpResult.noConfusion h
      · split at h
        · exact HttpResult.noConfusion h
        · cases h
          rfl
  exact ⟨h1,
    fun req1 req2 dec1 dec2 enc1 enc2 s1 s2 ha hb =>
      (h1 req1 dec1 enc1 s1 ha).trans (h1 req2 dec2 enc2 s2 hb).symm,
    rfl⟩

/-- C9, witness at a concrete pair of runs. -/
theorem c9_witness : cloudS0.detections = Cloud.mock_detections :=
  c9_static_input_independent.1 reqPhoto decodeTiny encode0 cloudS0
    cloud_eval

/-- C10: in both variants, every success response's `count` field
equals the length of its `detections` list. -/
theorem c10_count_eq_length :
    (∀ (st : App.BackendState) (req : Request)
        (dec : List Nat → Option Img) (enc : Img → String)
        (bk : Img → Except String (List RawBox)) (r : MockRand)
        (s : App.AppSuccess),
        App.detect_objects st req dec enc bk r = .ok s →
        s.count = s.detections.length)
    ∧ (∀ (req : Request) (dec : List Nat → Option Img)
        (enc : Img → String) (s : Cloud.CloudSuccess),
        Cloud.detect_objects req dec enc = .ok s →
        s.count = s.detections.length) := by
  constructor
  · intro st req dec enc bk r s h
    unfold App.detect_objects at h
    split at h
    · exact HttpResult.noConfusion h
    · split at h
      · exact HttpResult.noConfusion h
      · split at h
        · exact HttpResult.noConfusion h
        · split at h
          · split at h
            · cases h
              rfl
            · cases h
              rfl
          · cases h
            rfl
  · intro req dec enc s h
    unfold Cloud.detect_objects at h
    split at h
    · exact HttpResult.noConfusion h
    · split at h
      · exact HttpResult.noConfusion h
      · split at h
        · exact HttpResult.noConfusion h
        · cases h
          rfl

/-- C10, witness at a concrete successful mock-path run. -/
theorem c10_witness : cloudS0.count = cloudS0.detections.length :=
  c10_count_eq_length.2 reqPhoto decodeTiny encode0 cloudS0 cloud_eval
